import Mathlib

/-!
Shallow embedding of the `call_reminder` backend core: the reminder data
model (`app/models/reminder.py`), the Vapi call-trigger service
(`app/services/vapi.py`), and the background scheduler
(`app/services/scheduler.py`).  External effects (HTTP responses, database
commits, exceptions raised by collaborators) are modelled as explicit
oracle inputs; the embedded functions follow the control flow of the
Python source line by line.
-/

namespace CallReminder

/-! ## Data model (`app/models/reminder.py`) -/

/-- `ReminderStatus` enum: `scheduled | completed | failed`. -/
inductive ReminderStatus
  | scheduled
  | completed
  | failed
deriving DecidableEq, Repr

/-- The `Reminder` row.  `trigger_at` and `created_at` are UTC timestamps
modelled as integers (seconds); `timezone` is a display hint only. -/
structure Reminder where
  id : Nat
  title : String
  message : String
  phone_number : String
  trigger_at : Int
  timezone : String
  status : ReminderStatus
  created_at : Int
deriving DecidableEq, Repr

/-! ## Vapi service (`app/services/vapi.py`) -/

/-- `VapiCallResult` dataclass: outcome of a call attempt. -/
structure VapiCallResult where
  success : Bool
  call_id : Option String := none
  error_message : Option String := none
deriving DecidableEq, Repr

/-- The configuration fields `trigger_call` depends on
(`settings.vapi_api_key`, `settings.vapi_assistant_id`,
`settings.vapi_phone_number_id`); the empty string is the falsy
"not configured" default from `app/config.py`. -/
structure VapiConfig where
  api_key : String
  assistant_id : String
  phone_number_id : String
deriving DecidableEq, Repr

/-- `VapiService._validate_configuration`: returns the first error message
for a missing (empty) credential, `none` when all are present. -/
def validate_configuration (cfg : VapiConfig) : Option String :=
  if cfg.api_key = "" then some "Vapi API key is not configured"
  else if cfg.assistant_id = "" then some "Vapi assistant ID is not configured"
  else if cfg.phone_number_id = "" then some "Vapi phone number ID is not configured"
  else none

/-- An HTTP response from the Vapi API, as `trigger_call` observes it:
`status_code`, raw body `text`, `parsed_id` is `some id` when
`VapiCallResponse.model_validate(response.json())` succeeds and `none`
when that parse raises, and `json_error_field` is the
`message`/`error` field extracted from the error body when the body is
JSON (`none` when `response.json()` itself raises, in which case the raw
text is used). -/
structure VapiResponse where
  status_code : Nat
  text : String
  parsed_id : Option String
  json_error_field : Option String
deriving DecidableEq, Repr

/-- Oracle for the network interaction inside `trigger_call`'s `try`
block: either an HTTP response arrives, or `httpx` raises a
`TimeoutException`, a `RequestError`, or some other exception. -/
inductive NetResult
  | response (r : VapiResponse)
  | timeout
  | requestError (msg : String)
  | unexpectedError (msg : String)
deriving DecidableEq, Repr

/-- `VapiService.trigger_call`: validates configuration before any network
attempt, then maps the HTTP interaction to a `VapiCallResult`.  Success
requires `response.status_code in (200, 201)` and a parseable payload;
every exception is caught and folded into a non-success result, so the
function is total. -/
def trigger_call (cfg : VapiConfig) (net : NetResult) : VapiCallResult :=
  match validate_configuration cfg with
  | some config_error => { success := false, error_message := some config_error }
  | none =>
    match net with
    | .response r =>
      if r.status_code = 200 ∨ r.status_code = 201 then
        match r.parsed_id with
        | some id => { success := true, call_id := some id }
        | none =>
          { success := false
            error_message := some ("Error parsing Vapi response: " ++ r.text) }
      else
        let error_message := r.json_error_field.getD r.text
        { success := false
          error_message := some
            ("Vapi API error (" ++ toString r.status_code ++ "): " ++ error_message) }
    | .timeout =>
      { success := false, error_message := some "Vapi API request timed out" }
    | .requestError e =>
      { success := false, error_message := some ("Vapi API request failed: " ++ e) }
    | .unexpectedError e =>
      { success := false
        error_message := some ("Unexpected error calling Vapi API: " ++ e) }

/-! ## Reminder scheduler (`app/services/scheduler.py`) -/

/-- Oracle for `await self.vapi_service.trigger_call(...)` inside
`_process_reminder`: either it returns a `VapiCallResult` normally, or the
awaited invocation itself raises an unexpected exception. -/
inductive CallAttempt
  | outcome (o : VapiCallResult)
  | raises
deriving DecidableEq, Repr

/-- Oracle for a `db.commit()` call: it either persists or raises. -/
inductive CommitOutcome
  | ok
  | raises
deriving DecidableEq, Repr

/-- Per-reminder environment for one `_process_reminder` call: the
behaviour of the Vapi call, of the commit in the `try` body (`commit1`),
and of the retry commit inside the `except` handler (`commit2`). -/
structure ReminderEnv where
  call : CallAttempt
  commit1 : CommitOutcome
  commit2 : CommitOutcome
deriving DecidableEq, Repr

/-- Result of `_process_reminder` for one reminder: `mem` is the
in-memory `reminder.status` after the call returns, `store` is the status
the database holds (the last successfully committed value; after a
`db.rollback()` the session is expired, so `mem` reverts to the store
value on next access). -/
structure ProcResult where
  mem : ReminderStatus
  store : ReminderStatus
deriving DecidableEq, Repr

/-- The `try` body of `_process_reminder` (scheduler.py lines 81-103):
trigger the call, map the outcome to a status, commit.  `Except.error`
marks the points where an exception escapes to the handler: the awaited
call raising, or `db.commit()` raising. -/
def process_reminder_body (env : ReminderEnv) : Except Unit ReminderStatus :=
  match env.call with
  | .raises => .error ()
  | .outcome result =>
    let st := if result.success then ReminderStatus.completed else ReminderStatus.failed
    match env.commit1 with
    | .ok => .ok st
    | .raises => .error ()

/-- `ReminderScheduler._process_reminder`: runs the body; on any exception
the handler sets `reminder.status = failed` and commits again, and if that
second commit also raises it rolls back, leaving the store's prior status
`st0`.  Total: no exception propagates to the caller. -/
def process_reminder (env : ReminderEnv) (st0 : ReminderStatus) : ProcResult :=
  match process_reminder_body env with
  | .ok st => ⟨st, st⟩
  | .error _ =>
    match env.commit2 with
    | .ok => ⟨ReminderStatus.failed, ReminderStatus.failed⟩
    | .raises => ⟨st0, st0⟩

/-- The due predicate of `_get_due_reminders`:
`status == scheduled AND trigger_at <= now`. -/
def is_due (now : Int) (r : Reminder) : Bool :=
  decide (r.status = ReminderStatus.scheduled) && decide (r.trigger_at ≤ now)

/-- `ReminderScheduler._get_due_reminders`: all store rows with
`status == scheduled` and `trigger_at <= now`. -/
def get_due_reminders (now : Int) (store : List Reminder) : List Reminder :=
  store.filter (fun r => is_due now r)

/-- Per-tick environment: whether the due query succeeds, and the
`ReminderEnv` each reminder (keyed by id) meets this tick. -/
structure TickEnv where
  query_ok : Bool
  envOf : Nat → ReminderEnv

/-- Effect of the tick on one store row: a due row's status becomes
whatever `_process_reminder` leaves in the store; a row that the due query
does not select is untouched. -/
def process_in_store (now : Int) (envOf : Nat → ReminderEnv) (r : Reminder) : Reminder :=
  if is_due now r then { r with status := (process_reminder (envOf r.id) r.status).store }
  else r

/-- The sequential `for reminder in due_reminders` loop of
`_check_and_process_reminders`, expressed row by row over the store
(each row is processed independently because `_process_reminder` is
total). -/
def process_all (now : Int) (envOf : Nat → ReminderEnv) :
    List Reminder → List Reminder
  | [] => []
  | r :: rs => process_in_store now envOf r :: process_all now envOf rs

/-- Result of one tick: the new store contents, whether the per-tick
session was released (`finally: db.close()`), and whether an exception
escaped the tick. -/
structure TickResult where
  store : List Reminder
  session_released : Bool
  raised : Bool
deriving Repr

/-- The `try` body of `_check_and_process_reminders` (lines 120-139):
query the due reminders — which may raise — then process each. -/
def check_and_process_body (tenv : TickEnv) (now : Int) (store : List Reminder) :
    Except Unit (List Reminder) :=
  if tenv.query_ok then .ok (process_all now tenv.envOf store) else .error ()

/-- `ReminderScheduler._check_and_process_reminders`: one tick.  An
exception from the query is caught and logged (store untouched); the
`finally` block always closes the session; nothing propagates. -/
def check_and_process_reminders (tenv : TickEnv) (now : Int) (store : List Reminder) :
    TickResult :=
  match check_and_process_body tenv now store with
  | .ok s => ⟨s, true, false⟩
  | .error _ => ⟨store, true, false⟩

/-- A sequence of ticks of `_run_loop`, each with its own environment and
query time. -/
def run_ticks (ticks : List (TickEnv × Int)) (store : List Reminder) : List Reminder :=
  match ticks with
  | [] => store
  | (tenv, now) :: rest => run_ticks rest (check_and_process_reminders tenv now store).store

/-! ## Scheduler lifecycle (`start` / `stop` / `is_running`) -/

/-- Scheduler lifecycle state: `running` is `self._running`, `task` is
`self._task` (the id of the live loop task, if any), and `tasks_created`
counts how many times `asyncio.create_task(self._run_loop())` has run. -/
structure Sched where
  running : Bool
  task : Option Nat
  tasks_created : Nat
deriving DecidableEq, Repr

/-- The freshly constructed scheduler: `_running = False`, `_task = None`. -/
def Sched.init : Sched := ⟨false, none, 0⟩

/-- The `is_running` property: returns `self._running`. -/
def Sched.is_running (s : Sched) : Bool := s.running

/-- `ReminderScheduler.start`: warns and returns unchanged when already
running; otherwise sets `_running = True` and creates the loop task. -/
def start (s : Sched) : Sched :=
  if s.running then s
  else { running := true, task := some s.tasks_created, tasks_created := s.tasks_created + 1 }

/-- One observable point during `stop()` (at an `await`, another coroutine
can read the state): the value `is_running` returns, whether the loop task
has terminated, and whether `task.cancel()` has been issued. -/
structure StopObs where
  is_running : Bool
  task_terminated : Bool
  cancel_requested : Bool
deriving DecidableEq, Repr

/-- The `timeout=5.0` grace period `stop()` passes to `asyncio.wait_for`. -/
def stop_grace_seconds : Nat := 5

/-- `ReminderScheduler.stop`, with an oracle `fin_in_grace` saying whether
the loop task finishes within the 5-second grace period.  Returns the
sequence of observable intermediate states in order, and the final state.
When not running it is a warning no-op.  Otherwise `self._running = False`
is executed first; then, if a task exists, `asyncio.wait_for(task, 5.0)`
either sees the task finish, or times out, cancels the task and awaits the
cancellation; finally `self._task = None`. -/
def stop (s : Sched) (fin_in_grace : Bool) : List StopObs × Sched :=
  if s.running = false then ([], s)
  else
    match s.task with
    | none => ([⟨false, false, false⟩], { s with running := false })
    | some _ =>
      let trace :=
        if fin_in_grace then
          [⟨false, false, false⟩, ⟨false, true, false⟩]
        else
          [⟨false, false, false⟩, ⟨false, false, true⟩, ⟨false, true, true⟩]
      (trace, { running := false, task := none, tasks_created := s.tasks_created })

/-- One pass of the `while self._running` loop in `_run_loop`: when the
flag is false the loop exits without running a tick; otherwise it runs one
tick.  The second component records whether a tick ran. -/
def run_loop_pass (running : Bool) (tenv : TickEnv) (now : Int) (store : List Reminder) :
    List Reminder × Bool :=
  if running then ((check_and_process_reminders tenv now store).store, true)
  else (store, false)

/-! ## Helper lemmas -/

/-- The sequential per-reminder loop has the same effect as mapping
`process_in_store` over the store. -/
lemma process_all_eq_map (now : Int) (envOf : Nat → ReminderEnv) :
    ∀ l : List Reminder, process_all now envOf l = l.map (process_in_store now envOf)
  | [] => rfl
  | r :: rs => by simp [process_all, process_all_eq_map now envOf rs]

/-- A row the due query does not select is untouched by the tick. -/
lemma process_in_store_of_not_due (now : Int) (envOf : Nat → ReminderEnv)
    (r : Reminder) (h : is_due now r = false) :
    process_in_store now envOf r = r := by
  simp [process_in_store, h]

/-- A reminder in a terminal (non-`scheduled`) status is never due. -/
lemma is_due_false_of_not_scheduled (now : Int) (r : Reminder)
    (h : r.status ≠ ReminderStatus.scheduled) : is_due now r = false := by
  simp [is_due, h]

/-- Row `i` of the store after a tick whose query succeeds. -/
lemma tick_store_getElem? (tenv : TickEnv) (now : Int) (store : List Reminder)
    (i : Nat) (hq : tenv.query_ok = true) :
    (check_and_process_reminders tenv now store).store[i]? =
      store[i]?.map (process_in_store now tenv.envOf) := by
  simp [check_and_process_reminders, check_and_process_body, hq, process_all_eq_map,
    List.getElem?_map]

/-- A tick whose query raises leaves the store untouched, releases the
session and propagates nothing. -/
lemma tick_of_query_fault (tenv : TickEnv) (now : Int) (store : List Reminder)
    (hq : tenv.query_ok = false) :
    check_and_process_reminders tenv now store = ⟨store, true, false⟩ := by
  simp [check_and_process_reminders, check_and_process_body, hq]

/-- A row the due query selects has its status replaced by whatever
`_process_reminder` leaves in the store. -/
lemma process_in_store_of_due (now : Int) (envOf : Nat → ReminderEnv)
    (r : Reminder) (h : is_due now r = true) :
    process_in_store now envOf r =
      { r with status := (process_reminder (envOf r.id) r.status).store } := by
  simp [process_in_store, h]

/-- When the Vapi call returns an outcome and the commit succeeds,
`_process_reminder` records `completed` on success and `failed`
otherwise, both in memory and in the store. -/
lemma process_reminder_of_outcome_ok (env : ReminderEnv) (st0 : ReminderStatus)
    (o : VapiCallResult) (hc : env.call = CallAttempt.outcome o)
    (h1 : env.commit1 = CommitOutcome.ok) :
    process_reminder env st0 =
      ⟨if o.success then ReminderStatus.completed else ReminderStatus.failed,
       if o.success then ReminderStatus.completed else ReminderStatus.failed⟩ := by
  unfold process_reminder process_reminder_body
  rw [hc, h1]

/-- The store value `_process_reminder` leaves is the prior status or a
terminal one. -/
lemma process_reminder_store_cases (env : ReminderEnv) (st0 : ReminderStatus) :
    (process_reminder env st0).store = st0 ∨
    (process_reminder env st0).store = ReminderStatus.completed ∨
    (process_reminder env st0).store = ReminderStatus.failed := by
  unfold process_reminder process_reminder_body
  cases env.call with
  | raises => cases env.commit2 <;> simp
  | outcome o =>
    cases h1 : env.commit1 with
    | ok => cases o.success <;> simp
    | raises => cases env.commit2 <;> simp

/-- A row in a terminal status survives one tick unchanged. -/
lemma tick_preserves_terminal (tenv : TickEnv) (now : Int) (store : List Reminder)
    (i : Nat) (r : Reminder) (hi : store[i]? = some r)
    (hsts : r.status ≠ ReminderStatus.scheduled) :
    (check_and_process_reminders tenv now store).store[i]? = some r := by
  by_cases hq : tenv.query_ok
  · rw [tick_store_getElem? tenv now store i hq, hi]
    simp [process_in_store_of_not_due, is_due_false_of_not_scheduled now r hsts]
  · rw [tick_of_query_fault tenv now store (by simpa using hq)]
    exact hi

/-- A row in a terminal status survives any sequence of ticks unchanged. -/
lemma run_ticks_preserves_terminal (i : Nat) (r : Reminder)
    (hsts : r.status ≠ ReminderStatus.scheduled) :
    ∀ (ticks : List (TickEnv × Int)) (store : List Reminder),
      store[i]? = some r → (run_ticks ticks store)[i]? = some r
  | [], _, hi => hi
  | (tenv, now) :: rest, store, hi =>
    run_ticks_preserves_terminal i r hsts rest _
      (tick_preserves_terminal tenv now store i r hi hsts)

/-! ## Claims about the Reminder Processor and the tick -/

/-- C1: a reminder selected by the due query (status `scheduled`,
`trigger_at <= now`), whose Vapi call returns an outcome and whose commit
succeeds, ends the tick with status `completed` exactly when
`CallOutcome.success` is true and `failed` otherwise; it never remains
`scheduled`, and that status is what the store holds. -/
theorem C1_due_reminder_reaches_outcome_status
    (tenv : TickEnv) (now : Int) (store : List Reminder) (i : Nat)
    (r : Reminder) (o : VapiCallResult)
    (hi : store[i]? = some r)
    (hdue : is_due now r = true)
    (hq : tenv.query_ok = true)
    (hc : (tenv.envOf r.id).call = CallAttempt.outcome o)
    (h1 : (tenv.envOf r.id).commit1 = CommitOutcome.ok) :
    (check_and_process_reminders tenv now store).store[i]? =
      some { r with status :=
        if o.success then ReminderStatus.completed else ReminderStatus.failed } ∧
    (if o.success then ReminderStatus.completed else ReminderStatus.failed) ≠
      ReminderStatus.scheduled := by
  constructor
  · rw [tick_store_getElem? tenv now store i hq, hi, Option.map_some',
      process_in_store_of_due now tenv.envOf r hdue,
      process_reminder_of_outcome_ok (tenv.envOf r.id) r.status o hc h1]
  · cases o.success <;> simp

/-- C2: an unexpected fault raised by the Vapi call is caught inside
`_process_reminder`: the handler best-effort marks the reminder `failed`
(persisting it when the retry commit succeeds, rolling back and leaving
the store's prior status when it also fails), the tick propagates no
exception, and any other due reminder in the same tick is still attempted
and still reaches a terminal status. -/
theorem C2_unexpected_fault_isolated
    (tenv : TickEnv) (now : Int) (store : List Reminder)
    (iA jB : Nat) (rA rB : Reminder) (oB : VapiCallResult)
    (hq : tenv.query_ok = true)
    (hiA : store[iA]? = some rA)
    (hA : (tenv.envOf rA.id).call = CallAttempt.raises)
    (hjB : store[jB]? = some rB)
    (hdueB : is_due now rB = true)
    (hcB : (tenv.envOf rB.id).call = CallAttempt.outcome oB)
    (h1B : (tenv.envOf rB.id).commit1 = CommitOutcome.ok) :
    ((tenv.envOf rA.id).commit2 = CommitOutcome.ok →
      process_reminder (tenv.envOf rA.id) rA.status =
        ⟨ReminderStatus.failed, ReminderStatus.failed⟩) ∧
    ((tenv.envOf rA.id).commit2 = CommitOutcome.raises →
      process_reminder (tenv.envOf rA.id) rA.status = ⟨rA.status, rA.status⟩) ∧
    (check_and_process_reminders tenv now store).raised = false ∧
    (check_and_process_reminders tenv now store).store[jB]? =
      some { rB with status :=
        if oB.success then ReminderStatus.completed else ReminderStatus.failed } ∧
    (if oB.success then ReminderStatus.completed else ReminderStatus.failed) ≠
      ReminderStatus.scheduled := by
  refine ⟨?_, ?_, ?_, ?_, ?_⟩
  · intro h2
    unfold process_reminder process_reminder_body
    rw [hA, h2]
  · intro h2
    unfold process_reminder process_reminder_body
    rw [hA, h2]
  · simp [check_and_process_reminders, check_and_process_body, hq]
  · rw [tick_store_getElem? tenv now store jB hq, hjB, Option.map_some',
      process_in_store_of_due now tenv.envOf rB hdueB,
      process_reminder_of_outcome_ok (tenv.envOf rB.id) rB.status oB hcB h1B]
  · cases oB.success <;> simp

/-- C3: when the due query raises, the tick catches the exception (nothing
escapes), leaves every reminder untouched, still releases the per-tick
session, and the loop goes on to run the subsequent ticks unhindered. -/
theorem C3_query_fault_skips_tick
    (tenv : TickEnv) (now : Int) (store : List Reminder)
    (hq : tenv.query_ok = false) :
    check_and_process_reminders tenv now store =
      { store := store, session_released := true, raised := false } ∧
    ∀ rest : List (TickEnv × Int),
      run_ticks ((tenv, now) :: rest) store = run_ticks rest store := by
  refine ⟨tick_of_query_fault tenv now store hq, fun rest => ?_⟩
  show run_ticks rest (check_and_process_reminders tenv now store).store = run_ticks rest store
  rw [tick_of_query_fault tenv now store hq]

/-- C4: a reminder with `trigger_at` after `now`, or whose status is not
`scheduled`, is left entirely unchanged by a tick: the due query does not
select it and the tick touches only queried rows. -/
theorem C4_non_due_reminder_unchanged
    (tenv : TickEnv) (now : Int) (store : List Reminder) (i : Nat) (r : Reminder)
    (hi : store[i]? = some r)
    (h : now < r.trigger_at ∨ r.status ≠ ReminderStatus.scheduled) :
    (check_and_process_reminders tenv now store).store[i]? = some r := by
  have hnd : is_due now r = false := by
    rcases h with h | h
    · simp [is_due, not_le.mpr h]
    · exact is_due_false_of_not_scheduled now r h
  by_cases hq : tenv.query_ok
  · rw [tick_store_getElem? tenv now store i hq, hi]
    simp [process_in_store_of_not_due now tenv.envOf r hnd]
  · rw [tick_of_query_fault tenv now store (by simpa using hq)]
    exact hi

/-- C5: status transitions are monotonic and one-way: a tick either
leaves a reminder's status unchanged or moves it from `scheduled` to a
terminal status (all other fields kept); the due query only ever selects
`scheduled` rows; and a reminder in a terminal status is unchanged by any
further sequence of ticks. -/
theorem C5_status_monotone_one_way
    (tenv : TickEnv) (now : Int) (store : List Reminder) (i : Nat) (r : Reminder)
    (hi : store[i]? = some r) :
    (∃ st', (check_and_process_reminders tenv now store).store[i]? =
        some { r with status := st' } ∧
      (st' = r.status ∨ (r.status = ReminderStatus.scheduled ∧
        (st' = ReminderStatus.completed ∨ st' = ReminderStatus.failed)))) ∧
    (∀ (now' : Int) (r' : Reminder),
      r' ∈ get_due_reminders now' store → r'.status = ReminderStatus.scheduled) ∧
    (r.status ≠ ReminderStatus.scheduled →
      ∀ ticks : List (TickEnv × Int), (run_ticks ticks store)[i]? = some r) := by
  refine ⟨?_, ?_, ?_⟩
  · by_cases hq : tenv.query_ok
    · rw [tick_store_getElem? tenv now store i hq, hi, Option.map_some']
      by_cases hdue : is_due now r = true
      · refine ⟨(process_reminder (tenv.envOf r.id) r.status).store,
          by rw [process_in_store_of_due now tenv.envOf r hdue], ?_⟩
        have hsched : r.status = ReminderStatus.scheduled := by
          have := hdue
          simp [is_due] at this
          exact this.1
        rcases process_reminder_store_cases (tenv.envOf r.id) r.status with h | h | h
        · exact Or.inl h
        · exact Or.inr ⟨hsched, Or.inl h⟩
        · exact Or.inr ⟨hsched, Or.inr h⟩
      · refine ⟨r.status, ?_, Or.inl rfl⟩
        rw [process_in_store_of_not_due now tenv.envOf r (by simpa using hdue)]
    · rw [tick_of_query_fault tenv now store (by simpa using hq)]
      exact ⟨r.status, by rw [hi], Or.inl rfl⟩
  · intro now' r' hmem
    have := List.of_mem_filter hmem
    simp [is_due] at this
    exact this.1
  · intro hterm ticks
    exact run_ticks_preserves_terminal i r hterm ticks store hi

/-! ## Claims about the scheduler lifecycle -/

/-- C6 as stated is false on the code: `stop()` executes
`self._running = False` before awaiting the loop task, so there is an
observable point during `stop()` where `is_running` is already false while
the task has not yet terminated — refuting "transitions to Idle
(is_running == false) once the underlying task has terminated — not
before" at the concrete running scheduler below. -/
theorem C6_counterexample :
    ¬ (∀ o ∈ (stop ⟨true, some 0, 1⟩ true).1,
        o.is_running = false → o.task_terminated = true) := by
  decide

/-- C6 amended: `stop()` on a running scheduler signals the loop to exit,
waits up to the 5-second grace period, issues a forcible cancellation
exactly when the task does not finish within the grace period, and returns
with the task terminated and cleared; however `is_running` becomes false
at the start of `stop()`, before the task has terminated, not only
after. -/
theorem C6_stop_amended
    (s : Sched) (fin_in_grace : Bool) (t : Nat)
    (hr : s.running = true) (ht : s.task = some t) :
    (stop s fin_in_grace).2.running = false ∧
    (stop s fin_in_grace).2.task = none ∧
    stop_grace_seconds = 5 ∧
    (∃ o : StopObs, (stop s fin_in_grace).1.getLast? = some o ∧
      o.task_terminated = true ∧ o.is_running = false ∧
      (o.cancel_requested = true ↔ fin_in_grace = false)) ∧
    (∃ o0 : StopObs, (stop s fin_in_grace).1.head? = some o0 ∧
      o0.is_running = false ∧ o0.task_terminated = false) := by
  unfold stop
  rw [hr, ht]
  cases fin_in_grace <;> simp [stop_grace_seconds]

/-- C7: a second `start()` while running is a no-op creating no duplicate
loop task (exactly one task was created and it is the live one); `stop()`
when not running is a safe no-op; after any `stop()` returns `is_running`
is false, and with the running flag false the `while self._running` loop
performs no further tick. -/
theorem C7_lifecycle_idempotent
    (s0 : Sched) (fin_in_grace : Bool)
    (h0 : s0.running = false) :
    start (start s0) = start s0 ∧
    (start s0).running = true ∧
    (start s0).tasks_created = s0.tasks_created + 1 ∧
    (start s0).task = some s0.tasks_created ∧
    stop s0 fin_in_grace = ([], s0) ∧
    (∀ s : Sched, (stop s fin_in_grace).2.is_running = false) ∧
    (∀ (tenv : TickEnv) (now : Int) (store : List Reminder),
      run_loop_pass false tenv now store = (store, false)) := by
  refine ⟨?_, ?_, ?_, ?_, ?_, ?_, ?_⟩
  · simp [start, h0]
  · simp [start, h0]
  · simp [start, h0]
  · simp [start, h0]
  · simp [stop, h0]
  · intro s
    unfold stop Sched.is_running
    by_cases hr : s.running = false
    · simp [hr]
    · cases hts : s.task <;> simp [hr, hts]
  · intro tenv now store
    simp [run_loop_pass]

/-! ## Claims about the Vapi call trigger -/

/-- A fully configured `VapiConfig` fixture. -/
def cfg_ok : VapiConfig := ⟨"key", "assistant", "phone"⟩

/-- C8 as stated is false on the code: `trigger_call` checks
`status_code in (200, 201)`, not the whole 2xx class, so a 202 response
whose payload parses fine (a 2xx success by the claim's reading) still
yields `success = false`. -/
theorem C8_counterexample :
    (200 ≤ 202 ∧ 202 < 300) ∧
    (VapiResponse.mk 202 "body" (some "call_1") none).parsed_id.isSome = true ∧
    (trigger_call cfg_ok
      (NetResult.response ⟨202, "body", some "call_1", none⟩)).success = false := by
  decide

/-- C8 amended: with valid configuration, `trigger_call` succeeds exactly
when the status code is 200 or 201 and the payload parses (returning the
provider's call id); any other status code — in particular every non-2xx —
yields failure carrying the provider-supplied message when the body has
one (falling back to the raw body); and an unparseable payload on a
200/201 response also yields failure. -/
theorem C8_success_iff_200_201_and_parsed
    (cfg : VapiConfig) (r : VapiResponse)
    (hcfg : validate_configuration cfg = none) :
    ((trigger_call cfg (NetResult.response r)).success = true ↔
      ((r.status_code = 200 ∨ r.status_code = 201) ∧ r.parsed_id.isSome = true)) ∧
    (∀ id, r.parsed_id = some id → (r.status_code = 200 ∨ r.status_code = 201) →
      trigger_call cfg (NetResult.response r) = ⟨true, some id, none⟩) ∧
    (¬ (r.status_code = 200 ∨ r.status_code = 201) →
      trigger_call cfg (NetResult.response r) =
        ⟨false, none, some ("Vapi API error (" ++ toString r.status_code ++ "): " ++
          r.json_error_field.getD r.text)⟩) ∧
    ((r.status_code = 200 ∨ r.status_code = 201) → r.parsed_id = none →
      trigger_call cfg (NetResult.response r) =
        ⟨false, none, some ("Error parsing Vapi response: " ++ r.text)⟩) := by
  unfold trigger_call
  rw [hcfg]
  refine ⟨?_, ?_, ?_, ?_⟩
  · by_cases h2 : r.status_code = 200 ∨ r.status_code = 201
    · cases hp : r.parsed_id <;> simp [h2, hp]
    · simp [h2]
  · intro id hp h2
    simp [h2, hp]
  · intro h2
    simp [h2]
  · intro h2 hp
    simp [h2, hp]

/-- C9: `trigger_call` is total and surfaces every fault as a result: a
missing API key, assistant id or phone number id produces a non-success
outcome whose value is independent of the network (so no network attempt
is observable), and a timeout, connection failure or any other exception
during the network call is caught and returned as
`success = false` with an error message, never propagated. -/
theorem C9_faults_returned_not_raised
    (cfg : VapiConfig) :
    ((cfg.api_key = "" ∨ cfg.assistant_id = "" ∨ cfg.phone_number_id = "") →
      ∃ err, validate_configuration cfg = some err ∧
        ∀ net : NetResult, trigger_call cfg net = ⟨false, none, some err⟩) ∧
    (validate_configuration cfg = none →
      trigger_call cfg NetResult.timeout =
        ⟨false, none, some "Vapi API request timed out"⟩ ∧
      (∀ e, trigger_call cfg (NetResult.requestError e) =
        ⟨false, none, some ("Vapi API request failed: " ++ e)⟩) ∧
      (∀ e, trigger_call cfg (NetResult.unexpectedError e) =
        ⟨false, none, some ("Unexpected error calling Vapi API: " ++ e)⟩)) := by
  constructor
  · intro hmiss
    have hne : validate_configuration cfg ≠ none := by
      unfold validate_configuration
      rcases hmiss with h | h | h <;>
        by_cases hk : cfg.api_key = "" <;>
        by_cases ha : cfg.assistant_id = "" <;>
        simp_all
    cases herr : validate_configuration cfg with
    | none => exact absurd herr hne
    | some err =>
      refine ⟨err, rfl, fun net => ?_⟩
      unfold trigger_call
      rw [herr]
  · intro hok
    refine ⟨?_, fun e => ?_, fun e => ?_⟩ <;>
      · unfold trigger_call
        rw [hok]

/-! ## Implicit claim: successful call recorded as failed -/

/-- C10: when the Vapi call succeeds but the commit persisting
`completed` raises, the per-reminder handler overwrites the status to
`failed` and its retry commit persists that, so the tick durably records
the reminder as `failed`; being terminal, it is never selected by the due
query again under any later sequence of ticks, so the successful call is
never reflected in the store. -/
theorem C10_success_persist_fault_recorded_failed
    (tenv : TickEnv) (now : Int) (store : List Reminder) (i : Nat)
    (r : Reminder) (o : VapiCallResult)
    (hi : store[i]? = some r)
    (hdue : is_due now r = true)
    (hq : tenv.query_ok = true)
    (hc : (tenv.envOf r.id).call = CallAttempt.outcome o)
    (hs : o.success = true)
    (h1 : (tenv.envOf r.id).commit1 = CommitOutcome.raises)
    (h2 : (tenv.envOf r.id).commit2 = CommitOutcome.ok) :
    process_reminder (tenv.envOf r.id) r.status =
      ⟨ReminderStatus.failed, ReminderStatus.failed⟩ ∧
    (check_and_process_reminders tenv now store).store[i]? =
      some { r with status := ReminderStatus.failed } ∧
    ∀ ticks : List (TickEnv × Int),
      (run_ticks ticks (check_and_process_reminders tenv now store).store)[i]? =
        some { r with status := ReminderStatus.failed } := by
  have hpr : process_reminder (tenv.envOf r.id) r.status =
      ⟨ReminderStatus.failed, ReminderStatus.failed⟩ := by
    unfold process_reminder process_reminder_body
    rw [hc, h1, h2]
  have hrow : (check_and_process_reminders tenv now store).store[i]? =
      some { r with status := ReminderStatus.failed } := by
    rw [tick_store_getElem? tenv now store i hq, hi, Option.map_some',
      process_in_store_of_due now tenv.envOf r hdue, hpr]
  refine ⟨hpr, hrow, fun ticks => ?_⟩
  exact run_ticks_preserves_terminal i { r with status := ReminderStatus.failed }
    (by simp) ticks _ hrow

/-! ## Concrete fixtures for witnesses -/

/-- A `CallOutcome` reporting success with the provider's call id. -/
def call_ok : VapiCallResult := ⟨true, some "abc123", none⟩

/-- A per-reminder environment where the call succeeds and commits work. -/
def env_good : ReminderEnv := ⟨CallAttempt.outcome call_ok, CommitOutcome.ok, CommitOutcome.ok⟩

/-- A per-reminder environment where the awaited call itself raises. -/
def env_raises : ReminderEnv := ⟨CallAttempt.raises, CommitOutcome.ok, CommitOutcome.ok⟩

/-- A per-reminder environment where the call succeeds but the first
commit raises; the handler's retry commit succeeds. -/
def env_commit_fault : ReminderEnv :=
  ⟨CallAttempt.outcome call_ok, CommitOutcome.raises, CommitOutcome.ok⟩

/-- A due reminder: scheduled, triggered 5 minutes before `now = 0`. -/
def r_due : Reminder := ⟨1, "Meds", "Take your meds", "+14155551234", -300, "UTC",
  ReminderStatus.scheduled, -3600⟩

/-- A second due reminder with a distinct id. -/
def rB_due : Reminder := ⟨2, "Bill", "Pay the bill", "+14155551235", -60, "UTC",
  ReminderStatus.scheduled, -3600⟩

/-- A reminder not yet due at `now = 0`. -/
def r_future : Reminder := ⟨3, "Later", "Future call", "+14155551236", 1000, "UTC",
  ReminderStatus.scheduled, -3600⟩

/-- A reminder already in a terminal status. -/
def r_done : Reminder := ⟨4, "Done", "Already called", "+14155551237", -300, "UTC",
  ReminderStatus.completed, -3600⟩

/-- Tick environment: query succeeds, every reminder meets `env_good`. -/
def tenv_good : TickEnv := ⟨true, fun _ => env_good⟩

/-- Tick environment where reminder id 1 raises and every other id is
well-behaved. -/
def tenv_iso : TickEnv := ⟨true, fun i => if i = 1 then env_raises else env_good⟩

/-- Tick environment whose due query raises. -/
def tenv_query_fault : TickEnv := ⟨false, fun _ => env_good⟩

/-- Tick environment where every reminder meets `env_commit_fault`. -/
def tenv_commit_fault : TickEnv := ⟨true, fun _ => env_commit_fault⟩

/-- A misconfigured `VapiConfig` (missing API key). -/
def cfg_bad : VapiConfig := ⟨"", "assistant", "phone"⟩

/-- A 200 response with a parseable payload. -/
def resp200 : VapiResponse := ⟨200, "body", some "call_1", none⟩

/-! ## Witnesses -/

/-- Witness for C1: the due fixture ends the tick `completed` in the
store. -/
theorem C1_witness :
    (check_and_process_reminders tenv_good 0 [r_due]).store[0]? =
      some { r_due with status :=
        if call_ok.success then ReminderStatus.completed else ReminderStatus.failed } ∧
    (if call_ok.success then ReminderStatus.completed else ReminderStatus.failed) ≠
      ReminderStatus.scheduled :=
  C1_due_reminder_reaches_outcome_status tenv_good 0 [r_due] 0 r_due call_ok
    rfl (by decide) rfl rfl rfl

/-- Witness for C2: reminder id 1 raising does not stop reminder id 2
from completing in the same tick, and nothing escapes the tick. -/
theorem C2_witness :
    process_reminder (tenv_iso.envOf r_due.id) r_due.status =
      ⟨ReminderStatus.failed, ReminderStatus.failed⟩ ∧
    (check_and_process_reminders tenv_iso 0 [r_due, rB_due]).raised = false ∧
    (check_and_process_reminders tenv_iso 0 [r_due, rB_due]).store[1]? =
      some { rB_due with status :=
        if call_ok.success then ReminderStatus.completed else ReminderStatus.failed } := by
  have h := C2_unexpected_fault_isolated tenv_iso 0 [r_due, rB_due] 0 1 r_due rB_due
    call_ok rfl rfl rfl rfl (by decide) rfl rfl
  exact ⟨h.1 rfl, h.2.2.1, h.2.2.2.1⟩

/-- Witness for C3: a query fault at the concrete store skips the tick,
keeps the session release, and the next tick still runs. -/
theorem C3_witness :
    check_and_process_reminders tenv_query_fault 0 [r_due] =
      { store := [r_due], session_released := true, raised := false } ∧
    run_ticks [(tenv_query_fault, 0)] [r_due] = run_ticks [] [r_due] := by
  have h := C3_query_fault_skips_tick tenv_query_fault 0 [r_due] rfl
  exact ⟨h.1, h.2 []⟩

/-- Witness for C4: the not-yet-due fixture is untouched by a tick. -/
theorem C4_witness :
    (check_and_process_reminders tenv_good 0 [r_future]).store[0]? = some r_future :=
  C4_non_due_reminder_unchanged tenv_good 0 [r_future] 0 r_future rfl
    (Or.inl (by decide))

/-- Witness for C5: the completed fixture survives zero and one ticks
unchanged. -/
theorem C5_witness :
    (run_ticks [] [r_done])[0]? = some r_done ∧
    (run_ticks [(tenv_good, 0)] [r_done])[0]? = some r_done :=
  ⟨(C5_status_monotone_one_way tenv_good 0 [r_done] 0 r_done rfl).2.2 (by decide) [],
   (C5_status_monotone_one_way tenv_good 0 [r_done] 0 r_done rfl).2.2 (by decide)
     [(tenv_good, 0)]⟩

/-- Witness for C6 (amended): stopping a concrete running scheduler whose
task misses the grace period ends Idle with the task cleared. -/
theorem C6_witness :
    (stop ⟨true, some 0, 1⟩ false).2.running = false ∧
    (stop ⟨true, some 0, 1⟩ false).2.task = none ∧
    stop_grace_seconds = 5 := by
  have h := C6_stop_amended ⟨true, some 0, 1⟩ false 0 rfl rfl
  exact ⟨h.1, h.2.1, h.2.2.1⟩

/-- Witness for C7: lifecycle facts at the freshly constructed
scheduler. -/
theorem C7_witness :
    start (start Sched.init) = start Sched.init ∧
    (start Sched.init).running = true ∧
    (start Sched.init).tasks_created = Sched.init.tasks_created + 1 ∧
    (start Sched.init).task = some Sched.init.tasks_created ∧
    stop Sched.init true = ([], Sched.init) := by
  have h := C7_lifecycle_idempotent Sched.init true rfl
  exact ⟨h.1, h.2.1, h.2.2.1, h.2.2.2.1, h.2.2.2.2.1⟩

/-- Witness for C8 (amended): a 200 response with a parseable payload
succeeds with the provider's call id. -/
theorem C8_witness :
    ((trigger_call cfg_ok (NetResult.response resp200)).success = true ↔
      ((resp200.status_code = 200 ∨ resp200.status_code = 201) ∧
        resp200.parsed_id.isSome = true)) ∧
    trigger_call cfg_ok (NetResult.response resp200) = ⟨true, some "call_1", none⟩ := by
  have h := C8_success_iff_200_201_and_parsed cfg_ok resp200 (by decide)
  exact ⟨h.1, h.2.1 "call_1" rfl (Or.inl rfl)⟩

/-- Witness for C9: the missing-key configuration fails identically on
any network behaviour, and with full configuration a timeout comes back
as a non-success result. -/
theorem C9_witness :
    trigger_call cfg_bad NetResult.timeout =
      ⟨false, none, some "Vapi API key is not configured"⟩ ∧
    trigger_call cfg_ok NetResult.timeout =
      ⟨false, none, some "Vapi API request timed out"⟩ := by
  have h1 := (C9_faults_returned_not_raised cfg_bad).1 (Or.inl rfl)
  have h2 := ((C9_faults_returned_not_raised cfg_ok).2 (by decide)).1
  obtain ⟨err, herr, hall⟩ := h1
  have heq : err = "Vapi API key is not configured" := by
    have hv : validate_configuration cfg_bad = some "Vapi API key is not configured" := by
      decide
    rw [herr] at hv
    exact (Option.some.injEq _ _).mp hv
  refine ⟨?_, h2⟩
  rw [← heq]
  exact hall NetResult.timeout

/-- Witness for C10: the commit-fault fixture durably records the
successfully-called reminder as `failed`, and a later tick leaves it
there. -/
theorem C10_witness :
    process_reminder (tenv_commit_fault.envOf r_due.id) r_due.status =
      ⟨ReminderStatus.failed, ReminderStatus.failed⟩ ∧
    (check_and_process_reminders tenv_commit_fault 0 [r_due]).store[0]? =
      some { r_due with status := ReminderStatus.failed } ∧
    (run_ticks [(tenv_good, 0)]
        (check_and_process_reminders tenv_commit_fault 0 [r_due]).store)[0]? =
      some { r_due with status := ReminderStatus.failed } := by
  have h := C10_success_persist_fault_recorded_failed tenv_commit_fault 0 [r_due] 0
    r_due call_ok rfl (by decide) rfl rfl rfl rfl rfl
  exact ⟨h.1, h.2.1, h.2.2 [(tenv_good, 0)]⟩

end CallReminder
